import Mathlib

/-!
Verification development for the solstice repository.

The frontend part embeds the dual-media sync controller of
src/frontend/src/pages/Lab.tsx: the React component state, the two video
element refs, the event handlers (handleLoadedMetadata, handleTimeUpdate,
handleSeek, the play/pause button click) and the two useEffect blocks
(play/pause sync with deps [isPlaying, videosReady], and the currentTime
drift sync with deps [currentTime, videosReady]).  Floats are modelled as
rationals; a NaN/unavailable duration is modelled as Option.none, and the
JavaScript fallback (d || 0) as durOr0.  Commands issued to the underlying
video elements (play(), pause(), assignments to .currentTime) are recorded
in a command list.

The backend part embeds views.py: VideoUploadView.post and
VideoListView.get.  The Python stable sort by mtime key is modelled with
List.insertionSort (a stable sort).
-/

namespace Solstice

/-- State of one underlying video element as seen through its ref:
its duration property (none models NaN / metadata not yet loaded /
non-finite) and its currentTime property. -/
structure Handle where
  duration : Option ℚ
  currentTime : ℚ
  deriving DecidableEq

/-- React component state of Lab plus the two video refs.  video1/video2
are none when the corresponding video element is not mounted. -/
structure LabState where
  isPlaying : Bool
  currentTime : ℚ
  duration : ℚ
  videosReady : Bool
  startTime : ℚ
  endTime : ℚ
  video1 : Option Handle
  video2 : Option Handle
  deriving DecidableEq

/-- A command forwarded to an underlying video element, indexed 1 or 2:
play(), pause(), or an assignment to its .currentTime property. -/
inductive Cmd where
  | play : Nat → Cmd
  | pause : Nat → Cmd
  | setTime : Nat → ℚ → Cmd
  deriving DecidableEq

/-- JavaScript fallback (d || 0) applied to a possibly-NaN duration. -/
def durOr0 : Option ℚ → ℚ
  | none => 0
  | some d => d

/-- Math.min on two (non-NaN) numbers. -/
def mathMin (a b : ℚ) : ℚ := if a ≤ b then a else b

/-- Math.abs. -/
def ratAbs (x : ℚ) : ℚ := if x < 0 then -x else x

/-- Lab.tsx lines 62-73, handleLoadedMetadata: if both refs are non-null,
set duration and endTime to Math.min(d1 || 0, d2 || 0), startTime to 0 and
videosReady to true.  It does not touch currentTime and does not record
which video element fired the event. -/
def handleLoadedMetadata (s : LabState) : LabState :=
  match s.video1, s.video2 with
  | some h1, some h2 =>
    let minDuration := mathMin (durOr0 h1.duration) (durOr0 h2.duration)
    { s with duration := minDuration, startTime := 0, endTime := minDuration,
             videosReady := true }
  | _, _ => s

/-- Lab.tsx lines 76-83, handleTimeUpdate: if ready and both refs are
non-null, set currentTime to the average of the two elements' positions. -/
def handleTimeUpdate (s : LabState) : LabState :=
  if s.videosReady = false then s
  else
    match s.video1, s.video2 with
    | some h1, some h2 =>
      { s with currentTime := (h1.currentTime + h2.currentTime) / 2 }
    | _, _ => s

/-- Lab.tsx lines 86-91, handleSeek: assign the new time to both mounted
video elements' .currentTime (a position command each) and set the state
currentTime.  There is no videosReady guard in this handler. -/
def handleSeek (t : ℚ) (s : LabState) : LabState × List Cmd :=
  let p1 : Option Handle × List Cmd :=
    match s.video1 with
    | some h => (some { h with currentTime := t }, [Cmd.setTime 1 t])
    | none => (none, [])
  let p2 : Option Handle × List Cmd :=
    match s.video2 with
    | some h => (some { h with currentTime := t }, [Cmd.setTime 2 t])
    | none => (none, [])
  ({ s with video1 := p1.1, video2 := p2.1, currentTime := t },
   p1.2 ++ p2.2)

/-- Lab.tsx lines 38-48, the play/pause useEffect body: when ready, issue
play() to both mounted elements if isPlaying, else pause() to both.
Optional chaining means an unmounted element receives nothing. -/
def playPauseEffect (s : LabState) : List Cmd :=
  if s.videosReady then
    if s.isPlaying then
      (match s.video1 with | some _ => [Cmd.play 1] | none => []) ++
      (match s.video2 with | some _ => [Cmd.play 2] | none => [])
    else
      (match s.video1 with | some _ => [Cmd.pause 1] | none => []) ++
      (match s.video2 with | some _ => [Cmd.pause 2] | none => [])
  else []

/-- First half of the drift-correction useEffect (Lab.tsx lines 53-55):
if ref 1 is mounted and its position differs from currentTime by more than
0.1, assign currentTime to it. -/
def driftStep1 (s : LabState) : LabState × List Cmd :=
  match s.video1 with
  | some h =>
    if ratAbs (h.currentTime - s.currentTime) > 0.1 then
      ({ s with video1 := some { h with currentTime := s.currentTime } },
       [Cmd.setTime 1 s.currentTime])
    else (s, [])
  | none => (s, [])

/-- Second half of the drift-correction useEffect (Lab.tsx lines 56-58),
same for ref 2. -/
def driftStep2 (s : LabState) : LabState × List Cmd :=
  match s.video2 with
  | some h =>
    if ratAbs (h.currentTime - s.currentTime) > 0.1 then
      ({ s with video2 := some { h with currentTime := s.currentTime } },
       [Cmd.setTime 2 s.currentTime])
    else (s, [])
  | none => (s, [])

/-- Lab.tsx lines 51-59, the drift-correction useEffect body: return early
when not ready, otherwise correct each mounted element whose position is
more than 0.1 away from currentTime. -/
def driftEffect (s : LabState) : LabState × List Cmd :=
  if s.videosReady = false then (s, [])
  else
    ((driftStep2 (driftStep1 s).1).1,
     (driftStep1 s).2 ++ (driftStep2 (driftStep1 s).1).2)

/-- Environment action: the browser makes video element i's duration
property available with value d (before its loadedmetadata event fires). -/
def envSetDuration (i : Nat) (d : ℚ) (s : LabState) : LabState :=
  if i = 1 then
    { s with video1 := s.video1.map (fun h => { h with duration := some d }) }
  else if i = 2 then
    { s with video2 := s.video2.map (fun h => { h with duration := some d }) }
  else s

/-- Environment action: video element i's playback position moves to t
(before its timeupdate event fires). -/
def envSetTime (i : Nat) (t : ℚ) (s : LabState) : LabState :=
  if i = 1 then
    { s with video1 := s.video1.map (fun h => { h with currentTime := t }) }
  else if i = 2 then
    { s with video2 := s.video2.map (fun h => { h with currentTime := t }) }
  else s

/-- External events driving the Lab component: a loadedmetadata event from
video element i carrying its now-known duration, a timeupdate event from
element i at position t, a click on the play/pause button (Lab.tsx line
139, setIsPlaying(!isPlaying)), and a change event of the range input. -/
inductive Event where
  | metadataLoaded : Nat → ℚ → Event
  | timeAdvanced : Nat → ℚ → Event
  | playToggleClicked : Event
  | seekInput : ℚ → Event

/-- Dispatch one event to its React handler, yielding the post-handler
state and the commands the handler itself issued. -/
def handleEvent : Event → LabState → LabState × List Cmd
  | Event.metadataLoaded i d, s => (handleLoadedMetadata (envSetDuration i d s), [])
  | Event.timeAdvanced i t, s => (handleTimeUpdate (envSetTime i t s), [])
  | Event.playToggleClicked, s => ({ s with isPlaying := !s.isPlaying }, [])
  | Event.seekInput t, s => handleSeek t s

/-- After a re-render, React re-runs each useEffect whose dependency array
changed: the play/pause effect on [isPlaying, videosReady], then the
drift-correction effect on [currentTime, videosReady], in source order. -/
def runEffects (prev s : LabState) : LabState × List Cmd :=
  let c1 : List Cmd :=
    if prev.isPlaying ≠ s.isPlaying ∨ prev.videosReady ≠ s.videosReady then
      playPauseEffect s
    else []
  if prev.currentTime ≠ s.currentTime ∨ prev.videosReady ≠ s.videosReady then
    ((driftEffect s).1, c1 ++ (driftEffect s).2)
  else (s, c1)

/-- One full event step: run the handler, then the effects whose
dependencies changed relative to the pre-event state. -/
def step (s : LabState) (e : Event) : LabState × List Cmd :=
  ((runEffects s (handleEvent e s).1).1,
   (handleEvent e s).2 ++ (runEffects s (handleEvent e s).1).2)

/-- Run a sequence of events, accumulating all issued commands. -/
def runTrace (s : LabState) : List Event → LabState × List Cmd
  | [] => (s, [])
  | e :: es =>
    ((runTrace (step s e).1 es).1,
     (step s e).2 ++ (runTrace (step s e).1 es).2)

/-- The state reached after a sequence of events. -/
def runState (s : LabState) (tr : List Event) : LabState := (runTrace s tr).1

/-- Initial Lab state once two video URLs have been resolved and both
video elements are mounted (refs non-null) with metadata not yet loaded:
all numeric state 0, not playing, not ready. -/
def initLab : LabState :=
  { isPlaying := false, currentTime := 0, duration := 0, videosReady := false,
    startTime := 0, endTime := 0,
    video1 := some { duration := none, currentTime := 0 },
    video2 := some { duration := none, currentTime := 0 } }

/-- Number of metadata-loaded events for handle index i in a trace. -/
def metaEventsFor (i : Nat) : List Event → Nat
  | [] => 0
  | Event.metadataLoaded j _ :: es =>
    (if j = i then 1 else 0) + metaEventsFor i es
  | _ :: es => metaEventsFor i es

/-- A file in the media directory: its name and its modification time
(os.path.getmtime), modelled as a natural number. -/
structure StoredFile where
  name : String
  mtime : Nat
  deriving DecidableEq

/-- Comparison by modification time, the sort key of VideoListView.get. -/
def mtimeOrder (a b : StoredFile) : Prop := a.mtime ≤ b.mtime

instance : DecidableRel mtimeOrder := fun a b => Nat.decLe a.mtime b.mtime

instance : IsTotal StoredFile mtimeOrder := ⟨fun a b => Nat.le_total a.mtime b.mtime⟩

instance : IsTrans StoredFile mtimeOrder := ⟨fun _ _ _ h1 h2 => Nat.le_trans h1 h2⟩

/-- Python str.endswith, expressed over the underlying character list. -/
def endsWithStr (s suffix : String) : Bool := suffix.data.isSuffixOf s.data

/-- The filename filter of VideoListView.get (views.py line 27):
f.endswith(('.mp4', '.webm', '.ogg')). -/
def isVideoFile (n : String) : Bool :=
  endsWithStr n ".mp4" || endsWithStr n ".webm" || endsWithStr n ".ogg"

/-- views.py lines 24-35, VideoListView.get: filter the media directory
listing to video files, stably sort ascending by mtime (Python sorted with
an mtime key, modelled by the stable List.insertionSort), take the last
element if any, and return its URL in BOTH fields video1 and video2
(videos[-1] is used for both); empty strings when no video exists. -/
def videoListGet (mediaUrl : String) (files : List StoredFile) : String × String :=
  let videos := List.insertionSort mtimeOrder (files.filter (fun f => isVideoFile f.name))
  match videos.getLast? with
  | some f => (mediaUrl ++ f.name, mediaUrl ++ f.name)
  | none => ("", "")

/-- An uploaded file as Django hands it to the view: a name and the chunks
of its content (bytes as naturals). -/
structure UploadedFile where
  name : String
  chunks : List (List Nat)
  deriving DecidableEq

/-- A multipart upload request: request.FILES.get('video') and
request.data.get('option'). -/
structure UploadRequest where
  video : Option UploadedFile
  option : Option String
  deriving DecidableEq

/-- An HTTP response: status code and JSON body as key/value pairs. -/
structure HttpResponse where
  status : Nat
  body : List (String × Option String)
  deriving DecidableEq

/-- views.py lines 12-22, VideoUploadView.post: if the request carries a
'video' file, write its chunks to MEDIA_ROOT joined with the file's own
name and reply 201 with a message (echoing the option); otherwise reply
400 with an error and write nothing.  The second component lists the
(path, content) pairs written. -/
def videoUploadPost (mediaRoot : String) (req : UploadRequest) :
    HttpResponse × List (String × List Nat) :=
  match req.video with
  | some v =>
    ({ status := 201,
       body := [("message", some "Video uploaded"), ("option", req.option)] },
     [(mediaRoot ++ "/" ++ v.name, v.chunks.flatten)])
  | none =>
    ({ status := 400, body := [("error", some "No video uploaded")] }, [])

/-- Concrete ready state for the dead-band example: playhead at 10.2,
element 1 at 10.15 (inside the dead band), element 2 at 10.35 (outside). -/
def c2state : LabState :=
  { isPlaying := true, currentTime := 10.2, duration := 20, videosReady := true,
    startTime := 0, endTime := 20,
    video1 := some { duration := some 20, currentTime := 10.15 },
    video2 := some { duration := some 20, currentTime := 10.35 } }

/-- Concrete ready state for the midpoint example: element 1 reports 10.0,
element 2 is about to report 10.4. -/
def c3state : LabState :=
  { isPlaying := true, currentTime := 10, duration := 20, videosReady := true,
    startTime := 0, endTime := 20,
    video1 := some { duration := some 20, currentTime := 10 },
    video2 := some { duration := some 20, currentTime := 10.3 } }

/-- Initial state with the play intent already toggled on while metadata
is still missing. -/
def c4state : LabState := { initLab with isPlaying := true }

/-- State where element 1 has a known duration of 5 and element 2 still
has an unknown (NaN) duration. -/
def c7state : LabState :=
  { initLab with video1 := some { duration := some 5, currentTime := 0 } }

/-- Ready state with a nonzero playhead and both durations known, used to
show handleLoadedMetadata leaves currentTime alone. -/
def c8state : LabState :=
  { isPlaying := false, currentTime := 7, duration := 0, videosReady := true,
    startTime := 0, endTime := 0,
    video1 := some { duration := some 120, currentTime := 7 },
    video2 := some { duration := some 95.5, currentTime := 7 } }

/-- Not-ready state where both durations just became known, with the
playhead still at 0. -/
def c8wState : LabState :=
  { initLab with
    video1 := some { duration := some 120, currentTime := 0 },
    video2 := some { duration := some 95.5, currentTime := 0 } }

/-- Concrete ready paused state for the double-toggle example. -/
def c9state : LabState :=
  { isPlaying := false, currentTime := 0, duration := 20, videosReady := true,
    startTime := 0, endTime := 20,
    video1 := some { duration := some 20, currentTime := 0 },
    video2 := some { duration := some 20, currentTime := 0 } }

theorem driftStep1_currentTime (s : LabState) :
    (driftStep1 s).1.currentTime = s.currentTime := by
  unfold driftStep1
  split
  · split_ifs <;> rfl
  · rfl

theorem driftStep2_currentTime (s : LabState) :
    (driftStep2 s).1.currentTime = s.currentTime := by
  unfold driftStep2
  split
  · split_ifs <;> rfl
  · rfl

theorem driftStep1_ready (s : LabState) :
    (driftStep1 s).1.videosReady = s.videosReady := by
  unfold driftStep1
  split
  · split_ifs <;> rfl
  · rfl

theorem driftStep2_ready (s : LabState) :
    (driftStep2 s).1.videosReady = s.videosReady := by
  unfold driftStep2
  split
  · split_ifs <;> rfl
  · rfl

theorem driftStep1_video2 (s : LabState) :
    (driftStep1 s).1.video2 = s.video2 := by
  unfold driftStep1
  split
  · split_ifs <;> rfl
  · rfl

theorem driftStep2_video1 (s : LabState) :
    (driftStep2 s).1.video1 = s.video1 := by
  unfold driftStep2
  split
  · split_ifs <;> rfl
  · rfl

theorem driftStep1_isPlaying (s : LabState) :
    (driftStep1 s).1.isPlaying = s.isPlaying := by
  unfold driftStep1
  split
  · split_ifs <;> rfl
  · rfl

theorem driftStep2_isPlaying (s : LabState) :
    (driftStep2 s).1.isPlaying = s.isPlaying := by
  unfold driftStep2
  split
  · split_ifs <;> rfl
  · rfl

theorem driftEffect_currentTime (s : LabState) :
    (driftEffect s).1.currentTime = s.currentTime := by
  unfold driftEffect
  split_ifs
  · rfl
  · simp [driftStep2_currentTime, driftStep1_currentTime]

theorem driftEffect_ready (s : LabState) :
    (driftEffect s).1.videosReady = s.videosReady := by
  unfold driftEffect
  split_ifs
  · rfl
  · simp [driftStep2_ready, driftStep1_ready]

theorem runEffects_currentTime (prev s : LabState) :
    (runEffects prev s).1.currentTime = s.currentTime := by
  unfold runEffects
  split_ifs <;> simp [driftEffect_currentTime]

theorem runEffects_ready (prev s : LabState) :
    (runEffects prev s).1.videosReady = s.videosReady := by
  unfold runEffects
  split_ifs <;> simp [driftEffect_ready]

theorem envSetDuration_ready (i : Nat) (d : ℚ) (s : LabState) :
    (envSetDuration i d s).videosReady = s.videosReady := by
  unfold envSetDuration
  split_ifs <;> rfl

theorem envSetTime_ready (i : Nat) (t : ℚ) (s : LabState) :
    (envSetTime i t s).videosReady = s.videosReady := by
  unfold envSetTime
  split_ifs <;> rfl

theorem envSetTime_isPlaying (i : Nat) (t : ℚ) (s : LabState) :
    (envSetTime i t s).isPlaying = s.isPlaying := by
  unfold envSetTime
  split_ifs <;> rfl

theorem envSetTime_currentTime (i : Nat) (t : ℚ) (s : LabState) :
    (envSetTime i t s).currentTime = s.currentTime := by
  unfold envSetTime
  split_ifs <;> rfl

theorem envSetDuration_isPlaying (i : Nat) (d : ℚ) (s : LabState) :
    (envSetDuration i d s).isPlaying = s.isPlaying := by
  unfold envSetDuration
  split_ifs <;> rfl

theorem envSetDuration_isSome1 (i : Nat) (d : ℚ) (s : LabState) :
    (envSetDuration i d s).video1.isSome = s.video1.isSome := by
  unfold envSetDuration
  split_ifs <;> cases s.video1 <;> simp

theorem envSetDuration_isSome2 (i : Nat) (d : ℚ) (s : LabState) :
    (envSetDuration i d s).video2.isSome = s.video2.isSome := by
  unfold envSetDuration
  split_ifs <;> cases s.video2 <;> simp

theorem handleLoadedMetadata_ready_of_isSome (s : LabState)
    (h1 : s.video1.isSome = true) (h2 : s.video2.isSome = true) :
    (handleLoadedMetadata s).videosReady = true := by
  rcases Option.isSome_iff_exists.mp h1 with ⟨g1, hv1⟩
  rcases Option.isSome_iff_exists.mp h2 with ⟨g2, hv2⟩
  simp [handleLoadedMetadata, hv1, hv2]

theorem handleLoadedMetadata_ready_mono (s : LabState)
    (h : s.videosReady = true) :
    (handleLoadedMetadata s).videosReady = true := by
  unfold handleLoadedMetadata
  split
  · rfl
  · exact h

theorem handleLoadedMetadata_isPlaying (s : LabState) :
    (handleLoadedMetadata s).isPlaying = s.isPlaying := by
  unfold handleLoadedMetadata
  split <;> rfl

theorem handleLoadedMetadata_video1 (s : LabState) :
    (handleLoadedMetadata s).video1 = s.video1 := by
  unfold handleLoadedMetadata
  split <;> rfl

theorem handleLoadedMetadata_video2 (s : LabState) :
    (handleLoadedMetadata s).video2 = s.video2 := by
  unfold handleLoadedMetadata
  split <;> rfl

theorem handleTimeUpdate_ready (s : LabState) :
    (handleTimeUpdate s).videosReady = s.videosReady := by
  unfold handleTimeUpdate
  split_ifs
  · rfl
  · split <;> rfl

theorem handleSeek_ready (t : ℚ) (s : LabState) :
    (handleSeek t s).1.videosReady = s.videosReady := by
  unfold handleSeek
  rfl

theorem handleEvent_ready_mono (e : Event) (s : LabState)
    (h : s.videosReady = true) :
    (handleEvent e s).1.videosReady = true := by
  cases e with
  | metadataLoaded i d =>
    exact handleLoadedMetadata_ready_mono _ (by rw [envSetDuration_ready]; exact h)
  | timeAdvanced i t =>
    simp [handleEvent, handleTimeUpdate_ready, envSetTime_ready, h]
  | playToggleClicked => exact h
  | seekInput t =>
    simp [handleEvent, handleSeek_ready, h]

theorem step_ready_mono (s : LabState) (e : Event)
    (h : s.videosReady = true) :
    (step s e).1.videosReady = true := by
  unfold step
  rw [runEffects_ready]
  exact handleEvent_ready_mono e s h

theorem runState_nil (s : LabState) : runState s [] = s := rfl

theorem runState_cons (s : LabState) (e : Event) (es : List Event) :
    runState s (e :: es) = runState (step s e).1 es := rfl

theorem runState_ready_mono (tr : List Event) (s : LabState)
    (h : s.videosReady = true) :
    (runState s tr).videosReady = true := by
  induction tr generalizing s with
  | nil => exact h
  | cons e es ih =>
    rw [runState_cons]
    exact ih _ (step_ready_mono s e h)

theorem step_meta_ready (s : LabState) (i : Nat) (d : ℚ)
    (h1 : s.video1.isSome = true) (h2 : s.video2.isSome = true) :
    (step s (Event.metadataLoaded i d)).1.videosReady = true := by
  unfold step
  rw [runEffects_ready]
  exact handleLoadedMetadata_ready_of_isSome _
    (by rw [envSetDuration_isSome1]; exact h1)
    (by rw [envSetDuration_isSome2]; exact h2)

/-- C1 (amended): with both video elements mounted, the ready flag becomes
true iff at least one metadata-loaded event has been received, from either
handle and regardless of order or repetition; the handler does not track
which handle reported. -/
theorem c1_readiness_gating (s : LabState) (tr : List Event)
    (hv1 : s.video1.isSome = true) (hv2 : s.video2.isSome = true)
    (hr : s.videosReady = false)
    (hm : ∀ e ∈ tr, ∃ i d, e = Event.metadataLoaded i d) :
    (runState s tr).videosReady = true ↔ tr ≠ [] := by
  cases tr with
  | nil => simp [runState_nil, hr]
  | cons e es =>
    obtain ⟨i, d, rfl⟩ := hm e (List.mem_cons_self e es)
    have hrun : (runState (step s (Event.metadataLoaded i d)).1 es).videosReady = true :=
      runState_ready_mono es _ (step_meta_ready s i d hv1 hv2)
    rw [runState_cons]
    simp [hrun]

/-- C1 counterexample: after a single metadata-loaded event from handle 1
only, ready is already true although handle 2 has received no
metadata-loaded event, refuting the only-if direction of the claim. -/
theorem c1_counterexample :
    (runState initLab [Event.metadataLoaded 1 5]).videosReady = true ∧
    metaEventsFor 2 [Event.metadataLoaded 1 5] = 0 := by
  constructor
  · norm_num [runState, runTrace, step, handleEvent, runEffects, playPauseEffect,
      driftEffect, driftStep1, driftStep2, handleLoadedMetadata, handleTimeUpdate,
      envSetDuration, envSetTime, initLab, mathMin, ratAbs, durOr0]
  · norm_num [metaEventsFor]

/-- C1 witness: the amended readiness gating applied to the one-event
trace from the initial bound state. -/
theorem c1_witness :
    (runState initLab [Event.metadataLoaded 1 (5 : ℚ)]).videosReady = true := by
  refine (c1_readiness_gating initLab [Event.metadataLoaded 1 (5 : ℚ)]
    rfl rfl rfl ?_).mpr (by simp)
  intro e he
  simp only [List.mem_singleton] at he
  exact ⟨1, 5, he⟩

/-- C6 (amended): while ready is false, the toggle, time-advance and
drift-correction operations forward no command to either media handle;
the seek handler is not covered, since it forwards position commands
unconditionally and is kept unreachable only by the range input being
disabled while not ready. -/
theorem c6_not_ready_no_commands (s : LabState) (hr : s.videosReady = false) :
    (∀ t : ℚ, (step s (Event.timeAdvanced 1 t)).2 = []) ∧
    (∀ t : ℚ, (step s (Event.timeAdvanced 2 t)).2 = []) ∧
    (step s Event.playToggleClicked).2 = [] ∧
    (driftEffect s).2 = [] := by
  have hadv : ∀ (i : Nat) (t : ℚ), (step s (Event.timeAdvanced i t)).2 = [] := by
    intro i t
    simp [step, handleEvent, runEffects, handleTimeUpdate, driftEffect,
      envSetTime_ready, envSetTime_isPlaying, envSetTime_currentTime, hr]
  refine ⟨fun t => hadv 1 t, fun t => hadv 2 t, ?_, ?_⟩
  · simp [step, handleEvent, runEffects, playPauseEffect, driftEffect, hr]
  · simp [driftEffect, hr]

/-- C6 counterexample: in the initial non-ready state, the seek handler
(range input change) forwards a position command to both handles, so the
claim that no operation forwards commands while not ready is false. -/
theorem c6_counterexample :
    initLab.videosReady = false ∧
    (step initLab (Event.seekInput 5)).2 = [Cmd.setTime 1 5, Cmd.setTime 2 5] := by
  constructor
  · rfl
  · norm_num [step, handleEvent, runEffects, playPauseEffect, driftEffect,
      driftStep1, driftStep2, handleSeek, initLab, ratAbs]

/-- C6 witness: the amended no-command property applied in the initial
non-ready state to each covered operation. -/
theorem c6_witness :
    (step initLab (Event.timeAdvanced 1 3)).2 = [] ∧
    (step initLab (Event.timeAdvanced 2 3)).2 = [] ∧
    (step initLab Event.playToggleClicked).2 = [] ∧
    (driftEffect initLab).2 = [] := by
  have h := c6_not_ready_no_commands initLab rfl
  exact ⟨h.1 3, h.2.1 3, h.2.2.1, h.2.2.2⟩

/-- C7 (amended): a handle whose reported duration is unavailable or
non-finite contributes 0 to the min through the JavaScript fallback
(d or 0), so the computed duration is min(other, 0), and readiness is
still reached by the metadata handler while that duration is unknown. -/
theorem c7_nonfinite_duration (s : LabState) (h1 h2 : Handle)
    (hv1 : s.video1 = some h1) (hv2 : s.video2 = some h2)
    (hd2 : h2.duration = none) :
    (handleLoadedMetadata s).duration = mathMin (durOr0 h1.duration) 0 ∧
    (handleLoadedMetadata s).videosReady = true := by
  simp [handleLoadedMetadata, hv1, hv2, hd2, durOr0]

/-- C7 counterexample: with handle 1 loaded at duration 5 and handle 2
still without metadata, the metadata handler computes duration 0 (the
unknown duration contributed the numeric value 0 to the min) and sets
ready, refuting both parts of the claim. -/
theorem c7_counterexample :
    c7state.video2 = some { duration := none, currentTime := 0 } ∧
    (handleLoadedMetadata c7state).videosReady = true ∧
    (handleLoadedMetadata c7state).duration = 0 ∧
    (handleLoadedMetadata c7state).duration ≠ 5 := by
  refine ⟨rfl, ?_, ?_, ?_⟩ <;>
    norm_num [c7state, initLab, handleLoadedMetadata, mathMin, durOr0]

/-- C7 witness: the amended statement applied to the concrete state with
one known duration of 5 and one unknown duration. -/
theorem c7_witness :
    (handleLoadedMetadata c7state).duration = mathMin 5 0 ∧
    (handleLoadedMetadata c7state).videosReady = true := by
  have h := c7_nonfinite_duration c7state
    { duration := some 5, currentTime := 0 } { duration := none, currentTime := 0 }
    rfl rfl rfl
  simpa [durOr0] using h

/-- C8 (amended): once both handles have known durations, the metadata
handler sets duration to the min of the two, startTime to 0, endTime to
that min, and ready to true, but leaves currentTime unchanged rather than
setting it to 0; with d1 = 120.0 and d2 = 95.5 the resulting duration and
endTime are 95.5. -/
theorem c8_duration_computation (s : LabState) (h1 h2 : Handle) (d1 d2 : ℚ)
    (hv1 : s.video1 = some h1) (hv2 : s.video2 = some h2)
    (hd1 : h1.duration = some d1) (hd2 : h2.duration = some d2) :
    (handleLoadedMetadata s).duration = mathMin d1 d2 ∧
    (handleLoadedMetadata s).startTime = 0 ∧
    (handleLoadedMetadata s).endTime = mathMin d1 d2 ∧
    (handleLoadedMetadata s).videosReady = true ∧
    (handleLoadedMetadata s).currentTime = s.currentTime := by
  simp [handleLoadedMetadata, hv1, hv2, hd1, hd2, durOr0]

/-- C8 counterexample: at a state whose playhead is 7 with both durations
known (120 and 95.5), the metadata handler computes duration, startTime
and endTime as claimed but leaves currentTime at 7, refuting the claim
that it sets currentTime to 0. -/
theorem c8_counterexample :
    (handleLoadedMetadata c8state).duration = 95.5 ∧
    (handleLoadedMetadata c8state).startTime = 0 ∧
    (handleLoadedMetadata c8state).endTime = 95.5 ∧
    (handleLoadedMetadata c8state).currentTime = 7 ∧ (7 : ℚ) ≠ 0 := by
  refine ⟨?_, ?_, ?_, ?_, ?_⟩ <;>
    norm_num [c8state, handleLoadedMetadata, mathMin, durOr0]

/-- C8 witness: the amended statement applied at the concrete state with
durations 120 and 95.5 and playhead 0. -/
theorem c8_witness :
    (handleLoadedMetadata c8wState).duration = 95.5 ∧
    (handleLoadedMetadata c8wState).startTime = 0 ∧
    (handleLoadedMetadata c8wState).endTime = 95.5 ∧
    (handleLoadedMetadata c8wState).videosReady = true ∧
    (handleLoadedMetadata c8wState).currentTime = 0 := by
  have h := c8_duration_computation c8wState
    { duration := some 120, currentTime := 0 } { duration := some 95.5, currentTime := 0 }
    120 95.5 rfl rfl rfl rfl
  have hmin : mathMin (120 : ℚ) 95.5 = 95.5 := by norm_num [mathMin]
  rw [hmin] at h
  simpa [c8wState, initLab] using h

theorem driftEffect_char (s : LabState) (h1 h2 : Handle)
    (hr : s.videosReady = true)
    (hv1 : s.video1 = some h1) (hv2 : s.video2 = some h2) :
    (driftEffect s).1.video1 =
      (if ratAbs (h1.currentTime - s.currentTime) > 0.1
       then some { h1 with currentTime := s.currentTime } else some h1) ∧
    (driftEffect s).1.video2 =
      (if ratAbs (h2.currentTime - s.currentTime) > 0.1
       then some { h2 with currentTime := s.currentTime } else some h2) ∧
    (driftEffect s).2 =
      (if ratAbs (h1.currentTime - s.currentTime) > 0.1
       then [Cmd.setTime 1 s.currentTime] else []) ++
      (if ratAbs (h2.currentTime - s.currentTime) > 0.1
       then [Cmd.setTime 2 s.currentTime] else []) := by
  by_cases b1 : ratAbs (h1.currentTime - s.currentTime) > 0.1 <;>
  by_cases b2 : ratAbs (h2.currentTime - s.currentTime) > 0.1 <;>
  simp [driftEffect, driftStep1, driftStep2, hr, hv1, hv2, b1, b2]

/-- C2: whenever the drift-correction effect runs while ready, each handle
whose own position differs from currentTime by more than 0.1 seconds has
currentTime assigned to it (a position command), and a handle within the
0.1 dead band receives no position command and is left unchanged. -/
theorem c2_dead_band_correction (s : LabState) (h1 h2 : Handle)
    (hr : s.videosReady = true)
    (hv1 : s.video1 = some h1) (hv2 : s.video2 = some h2) :
    (ratAbs (h1.currentTime - s.currentTime) > 0.1 →
      (driftEffect s).1.video1 = some { h1 with currentTime := s.currentTime } ∧
      Cmd.setTime 1 s.currentTime ∈ (driftEffect s).2) ∧
    (ratAbs (h1.currentTime - s.currentTime) ≤ 0.1 →
      (driftEffect s).1.video1 = some h1 ∧
      ∀ t : ℚ, Cmd.setTime 1 t ∉ (driftEffect s).2) ∧
    (ratAbs (h2.currentTime - s.currentTime) > 0.1 →
      (driftEffect s).1.video2 = some { h2 with currentTime := s.currentTime } ∧
      Cmd.setTime 2 s.currentTime ∈ (driftEffect s).2) ∧
    (ratAbs (h2.currentTime - s.currentTime) ≤ 0.1 →
      (driftEffect s).1.video2 = some h2 ∧
      ∀ t : ℚ, Cmd.setTime 2 t ∉ (driftEffect s).2) := by
  obtain ⟨e1, e2, ec⟩ := driftEffect_char s h1 h2 hr hv1 hv2
  refine ⟨?_, ?_, ?_, ?_⟩
  · intro hb
    rw [e1, if_pos hb]
    refine ⟨rfl, ?_⟩
    rw [ec, if_pos hb]
    simp
  · intro hb
    have hb1 : ¬ ratAbs (h1.currentTime - s.currentTime) > 0.1 := not_lt.mpr hb
    rw [e1, if_neg hb1]
    refine ⟨rfl, ?_⟩
    intro t
    rw [ec, if_neg hb1]
    by_cases b2 : ratAbs (h2.currentTime - s.currentTime) > 0.1
    · rw [if_pos b2]; simp
    · rw [if_neg b2]; simp
  · intro hb
    rw [e2, if_pos hb]
    refine ⟨rfl, ?_⟩
    rw [ec, if_pos hb]
    simp
  · intro hb
    have hb2 : ¬ ratAbs (h2.currentTime - s.currentTime) > 0.1 := not_lt.mpr hb
    rw [e2, if_neg hb2]
    refine ⟨rfl, ?_⟩
    intro t
    rw [ec, if_neg hb2]
    by_cases b1 : ratAbs (h1.currentTime - s.currentTime) > 0.1
    · rw [if_pos b1]; simp
    · rw [if_neg b1]; simp

/-- C2 witness: the dead-band property at playhead 10.2 with element 1 at
10.15 (no correction) and element 2 at 10.35 (corrected to 10.2). -/
theorem c2_witness :
    ratAbs ((10.15 : ℚ) - 10.2) ≤ 0.1 ∧ ratAbs ((10.35 : ℚ) - 10.2) > 0.1 ∧
    (driftEffect c2state).1.video1 = some { duration := some 20, currentTime := 10.15 } ∧
    (∀ t : ℚ, Cmd.setTime 1 t ∉ (driftEffect c2state).2) ∧
    (driftEffect c2state).1.video2 = some { duration := some 20, currentTime := 10.2 } ∧
    Cmd.setTime 2 (10.2 : ℚ) ∈ (driftEffect c2state).2 := by
  have h := c2_dead_band_correction c2state
    { duration := some 20, currentTime := 10.15 } { duration := some 20, currentTime := 10.35 }
    rfl rfl rfl
  have hb1 : ratAbs ((10.15 : ℚ) - 10.2) ≤ 0.1 := by norm_num [ratAbs]
  have hb2 : ratAbs ((10.35 : ℚ) - 10.2) > 0.1 := by norm_num [ratAbs]
  exact ⟨hb1, hb2, (h.2.1 hb1).1, (h.2.1 hb1).2, (h.2.2.1 hb2).1, (h.2.2.1 hb2).2⟩

/-- C3: while ready, a time-advance notification from either handle sets
currentTime to the arithmetic mean of the two handles' self-reported
positions at that moment. -/
theorem c3_midpoint_tracking (s : LabState) (h1 h2 : Handle) (t : ℚ)
    (hr : s.videosReady = true)
    (hv1 : s.video1 = some h1) (hv2 : s.video2 = some h2) :
    (step s (Event.timeAdvanced 1 t)).1.currentTime = (t + h2.currentTime) / 2 ∧
    (step s (Event.timeAdvanced 2 t)).1.currentTime = (h1.currentTime + t) / 2 := by
  constructor <;>
  · unfold step
    rw [runEffects_currentTime]
    simp [handleEvent, handleTimeUpdate, envSetTime, hv1, hv2, hr]

/-- C3 witness: with element 1 reporting 10.0 and element 2 advancing to
10.4, the playhead becomes 10.2. -/
theorem c3_witness :
    (step c3state (Event.timeAdvanced 2 10.4)).1.currentTime = 10.2 := by
  have h := (c3_midpoint_tracking c3state
    { duration := some 20, currentTime := 10 } { duration := some 20, currentTime := 10.3 }
    10.4 rfl rfl rfl).2
  rw [h]
  norm_num

theorem playPauseEffect_playing (s : LabState)
    (hr : s.videosReady = true) (hp : s.isPlaying = true)
    (h1 : s.video1.isSome = true) (h2 : s.video2.isSome = true) :
    playPauseEffect s = [Cmd.play 1, Cmd.play 2] := by
  rcases Option.isSome_iff_exists.mp h1 with ⟨g1, hv1⟩
  rcases Option.isSome_iff_exists.mp h2 with ⟨g2, hv2⟩
  simp [playPauseEffect, hr, hp, hv1, hv2]

/-- C4 (amended): if isPlaying was toggled to true while ready was false,
then the metadata event that makes ready true causes the play/pause sync
effect to re-run (ready is among its dependencies) and play() IS issued to
both handles: the stored intent is re-checked at the readiness
transition. -/
theorem c4_play_on_ready (s : LabState) (h1 h2 : Handle) (i : Nat) (d : ℚ)
    (hr : s.videosReady = false) (hp : s.isPlaying = true)
    (hv1 : s.video1 = some h1) (hv2 : s.video2 = some h2) :
    (step s (Event.metadataLoaded i d)).1.videosReady = true ∧
    Cmd.play 1 ∈ (step s (Event.metadataLoaded i d)).2 ∧
    Cmd.play 2 ∈ (step s (Event.metadataLoaded i d)).2 := by
  have hready : (handleLoadedMetadata (envSetDuration i d s)).videosReady = true :=
    handleLoadedMetadata_ready_of_isSome _
      (by rw [envSetDuration_isSome1, hv1]; rfl)
      (by rw [envSetDuration_isSome2, hv2]; rfl)
  have hplay : (handleLoadedMetadata (envSetDuration i d s)).isPlaying = true := by
    rw [handleLoadedMetadata_isPlaying, envSetDuration_isPlaying]; exact hp
  have hv1s : (handleLoadedMetadata (envSetDuration i d s)).video1.isSome = true := by
    rw [handleLoadedMetadata_video1, envSetDuration_isSome1, hv1]; rfl
  have hv2s : (handleLoadedMetadata (envSetDuration i d s)).video2.isSome = true := by
    rw [handleLoadedMetadata_video2, envSetDuration_isSome2, hv2]; rfl
  have hpp : playPauseEffect (handleLoadedMetadata (envSetDuration i d s)) =
      [Cmd.play 1, Cmd.play 2] :=
    playPauseEffect_playing _ hready hplay hv1s hv2s
  have hcond : s.videosReady ≠ (handleLoadedMetadata (envSetDuration i d s)).videosReady := by
    rw [hr, hready]; exact Bool.false_ne_true
  refine ⟨step_meta_ready s i d (by rw [hv1]; rfl) (by rw [hv2]; rfl), ?_, ?_⟩ <;>
  · simp only [step, handleEvent, runEffects, List.nil_append]
    rw [if_pos (Or.inr hcond), if_pos (Or.inr hcond), hpp]
    simp

/-- C4 counterexample: from the initial non-ready state, a toggle issues
no command and records the intent; the next metadata event then makes the
controller ready and play() IS issued to both handles as a consequence of
the readiness transition, refuting the claim. -/
theorem c4_counterexample :
    initLab.videosReady = false ∧
    (runTrace initLab [Event.playToggleClicked]).2 = [] ∧
    (runTrace initLab [Event.playToggleClicked]).1.isPlaying = true ∧
    (runTrace initLab [Event.playToggleClicked, Event.metadataLoaded 1 5]).2 =
      [Cmd.play 1, Cmd.play 2] := by
  refine ⟨rfl, ?_, ?_, ?_⟩ <;>
    norm_num [runTrace, step, handleEvent, runEffects, playPauseEffect, driftEffect,
      driftStep1, driftStep2, handleLoadedMetadata, handleTimeUpdate, envSetDuration,
      envSetTime, initLab, mathMin, ratAbs, durOr0]

/-- C4 witness: the amended statement applied at the initial state with
the play intent already on. -/
theorem c4_witness :
    (step c4state (Event.metadataLoaded 1 5)).1.videosReady = true ∧
    Cmd.play 1 ∈ (step c4state (Event.metadataLoaded 1 5)).2 ∧
    Cmd.play 2 ∈ (step c4state (Event.metadataLoaded 1 5)).2 :=
  c4_play_on_ready c4state { duration := none, currentTime := 0 }
    { duration := none, currentTime := 0 } 1 5 rfl rfl rfl rfl

/-- C9: from any ready state with both elements mounted, two consecutive
play/pause toggles return isPlaying to its original value and issue
play() then pause() to both handles in that order (or pause() then play()
when starting from playing), never skipping a command. -/
theorem c9_idempotent_toggle (s : LabState) (h1 h2 : Handle)
    (hr : s.videosReady = true)
    (hv1 : s.video1 = some h1) (hv2 : s.video2 = some h2) :
    (runTrace s [Event.playToggleClicked, Event.playToggleClicked]).1.isPlaying
      = s.isPlaying ∧
    (runTrace s [Event.playToggleClicked, Event.playToggleClicked]).2 =
      (if s.isPlaying then [Cmd.pause 1, Cmd.pause 2, Cmd.play 1, Cmd.play 2]
       else [Cmd.play 1, Cmd.play 2, Cmd.pause 1, Cmd.pause 2]) := by
  cases hp : s.isPlaying <;>
    constructor <;>
      simp [runTrace, step, handleEvent, runEffects, playPauseEffect, driftEffect,
        hr, hv1, hv2, hp]

/-- C9 witness: the double toggle from the concrete ready paused state
issues play play pause pause and restores isPlaying to false. -/
theorem c9_witness :
    (runTrace c9state [Event.playToggleClicked, Event.playToggleClicked]).1.isPlaying
      = false ∧
    (runTrace c9state [Event.playToggleClicked, Event.playToggleClicked]).2 =
      [Cmd.play 1, Cmd.play 2, Cmd.pause 1, Cmd.pause 2] := by
  have h := c9_idempotent_toggle c9state
    { duration := some 20, currentTime := 0 } { duration := some 20, currentTime := 0 }
    rfl rfl rfl
  constructor
  · exact h.1
  · have h2 := h.2
    simpa [c9state] using h2

theorem sorted_rel_getLast (l : List StoredFile) (hl : l.Sorted mtimeOrder) :
    ∀ a ∈ l, ∀ h : l ≠ [], mtimeOrder a (l.getLast h) := by
  induction l with
  | nil => intro a ha; exact absurd ha (List.not_mem_nil a)
  | cons b t ih =>
    intro a ha h
    cases t with
    | nil =>
      simp only [List.mem_singleton] at ha
      subst ha
      exact Nat.le_refl _
    | cons c t2 =>
      rw [List.getLast_cons (List.cons_ne_nil c t2)]
      rcases List.mem_cons.mp ha with rfl | hmem
      · exact List.rel_of_sorted_cons hl _ (List.getLast_mem (List.cons_ne_nil c t2))
      · exact ih hl.of_cons a hmem (List.cons_ne_nil c t2)

/-- C5 (amended): the media-source resolver returns the URL of the single
video file with the greatest modification time, duplicated in both
fields, so the dual-view player plays two copies of the most recently
stored video rather than the two most recent ones. -/
theorem c5_latest_video (mediaUrl : String) (files : List StoredFile) (f : StoredFile)
    (hf : f ∈ files) (hvid : isVideoFile f.name = true)
    (hmax : ∀ g ∈ files, isVideoFile g.name = true → g ≠ f → g.mtime < f.mtime) :
    videoListGet mediaUrl files = (mediaUrl ++ f.name, mediaUrl ++ f.name) := by
  have hfF : f ∈ files.filter (fun g => isVideoFile g.name) :=
    List.mem_filter.mpr ⟨hf, hvid⟩
  have hfL : f ∈ List.insertionSort mtimeOrder (files.filter (fun g => isVideoFile g.name)) :=
    (List.perm_insertionSort mtimeOrder _).mem_iff.mpr hfF
  have hne : List.insertionSort mtimeOrder (files.filter (fun g => isVideoFile g.name)) ≠ [] :=
    List.ne_nil_of_mem hfL
  have hsorted := List.sorted_insertionSort mtimeOrder (files.filter (fun g => isVideoFile g.name))
  have hle := sorted_rel_getLast _ hsorted f hfL hne
  have hlastF := (List.perm_insertionSort mtimeOrder _).mem_iff.mp (List.getLast_mem hne)
  obtain ⟨hlfiles, hlvid⟩ := List.mem_filter.mp hlastF
  have heq : (List.insertionSort mtimeOrder
      (files.filter (fun g => isVideoFile g.name))).getLast hne = f := by
    by_contra hne2
    exact absurd (Nat.lt_of_le_of_lt hle (hmax _ hlfiles hlvid hne2)) (Nat.lt_irrefl _)
  have hlast : (List.insertionSort mtimeOrder
      (files.filter (fun g => isVideoFile g.name))).getLast? = some f := by
    rw [List.getLast?_eq_getLast _ hne, heq]
  simp only [videoListGet]
  rw [hlast]

/-- C5 counterexample: with two stored videos a.mp4 (older) and b.mp4
(newer), the resolver returns b.mp4's URL twice rather than the URLs of
the latest two items, so a.mp4 is never played. -/
theorem c5_counterexample :
    videoListGet "/media/"
      [{ name := "a.mp4", mtime := 1 }, { name := "b.mp4", mtime := 2 }] =
      ("/media/b.mp4", "/media/b.mp4") ∧
    ("/media/a.mp4" : String) ≠ "/media/b.mp4" := by
  constructor
  · rfl
  · decide

/-- C5 witness: the amended statement applied to the same two-file
directory, with b.mp4 the strict-latest video file. -/
theorem c5_witness :
    videoListGet "/media/"
      [{ name := "a.mp4", mtime := 1 }, { name := "b.mp4", mtime := 2 }] =
      ("/media/" ++ "b.mp4", "/media/" ++ "b.mp4") :=
  c5_latest_video "/media/"
    [{ name := "a.mp4", mtime := 1 }, { name := "b.mp4", mtime := 2 }]
    { name := "b.mp4", mtime := 2 } (by decide) (by decide) (by decide)

/-- C10: the upload endpoint replies 201 with a success message exactly
when the request carries a video file, which is written to the media
directory under its original name; otherwise it replies 400 with an
error message and writes nothing. -/
theorem c10_upload_contract (mediaRoot : String) (req : UploadRequest) :
    (∀ v : UploadedFile, req.video = some v →
      (videoUploadPost mediaRoot req).1.status = 201 ∧
      (videoUploadPost mediaRoot req).1.body =
        [("message", some "Video uploaded"), ("option", req.option)] ∧
      (videoUploadPost mediaRoot req).2 =
        [(mediaRoot ++ "/" ++ v.name, v.chunks.flatten)]) ∧
    (req.video = none →
      (videoUploadPost mediaRoot req).1.status = 400 ∧
      (videoUploadPost mediaRoot req).1.body = [("error", some "No video uploaded")] ∧
      (videoUploadPost mediaRoot req).2 = []) := by
  constructor
  · intro v hv
    simp [videoUploadPost, hv]
  · intro hv
    simp [videoUploadPost, hv]

/-- C10 witness: the contract applied to a concrete request carrying
clip.mp4 with two chunks, and to a concrete request carrying no file. -/
theorem c10_witness :
    (videoUploadPost "media"
      { video := some { name := "clip.mp4", chunks := [[1, 2], [3]] },
        option := some "alg1" }).1.status = 201 ∧
    (videoUploadPost "media"
      { video := some { name := "clip.mp4", chunks := [[1, 2], [3]] },
        option := some "alg1" }).2 = [("media/clip.mp4", [1, 2, 3])] ∧
    (videoUploadPost "media" { video := none, option := none }).1.status = 400 ∧
    (videoUploadPost "media" { video := none, option := none }).2 = [] := by
  have h1 := (c10_upload_contract "media"
    { video := some { name := "clip.mp4", chunks := [[1, 2], [3]] },
      option := some "alg1" }).1 { name := "clip.mp4", chunks := [[1, 2], [3]] } rfl
  have h2 := (c10_upload_contract "media"
    { video := none, option := none }).2 rfl
  exact ⟨h1.1, h1.2.2, h2.1, h2.2.2⟩

end Solstice
